import Mathlib

/-!
Verification of the shell-script static-analysis engine of ryugen-io/helper-scripts.

The engine lives in three Python files: `src/dev/check_style.py` (class
`StyleChecker`), `src/dev/lint.py` (function-level linter) and
`src/dev/shellcheck.py` (class `ShellLinter`).  This file gives a shallow
embedding of the pure analysis logic of those files and proves properties
about it.

Modelling conventions:
* File content is a `List Char`; Python `content.split('\x7bnewline\x7d')` is
  `pySplitNL`, `content.splitlines()` is `pySplitlines` (we model the newline
  separator only, which is exact for the contents considered here).
* `filepath.read_text()` failure (an unreadable or undecodable file) is a
  `none` content; a Python exception that propagates is `Except.error ()`.
* `subprocess` calls (`bash -n` syntax validation) and `stat` permission
  bits are oracles carried on the file record, since they are outside the
  text-analysis logic.
* `load_env_config` defaults are used (`SYS_DIR = .sys`), matching a
  checkout with no `.env` override.
-/

/-- Python str of a file modelled as its character list. -/
def chars (s : String) : List Char := s.data

/-- Boolean list-prefix test, `needle` against a candidate list. -/
def isPrefixB : List Char → List Char → Bool
  | [], _ => true
  | _ :: _, [] => false
  | a :: as, b :: bs => a == b && isPrefixB as bs

/-- Python `needle in hay` substring containment. -/
def containsB (needle : List Char) : List Char → Bool
  | [] => isPrefixB needle []
  | c :: t => isPrefixB needle (c :: t) || containsB needle t

/-- Python `content.split` on the newline character: keeps empty pieces,
never returns an empty list. -/
def pySplitNL : List Char → List (List Char)
  | [] => [[]]
  | c :: cs =>
    if c == '\n' then [] :: pySplitNL cs
    else
      match pySplitNL cs with
      | [] => [[c]]
      | l :: ls => (c :: l) :: ls

/-- Python `content.splitlines()` restricted to the newline separator:
drops the empty piece after a trailing newline, and is `[]` on `""`. -/
def pySplitlines : List Char → List (List Char)
  | [] => []
  | c :: cs =>
    if c == '\n' then [] :: pySplitlines cs
    else
      match pySplitlines cs with
      | [] => [[c]]
      | l :: ls => (c :: l) :: ls

/-- Python whitespace for `str.strip()` and the regex class `\s` (ASCII). -/
def isPyWs (c : Char) : Bool :=
  c == ' ' || c == '\t' || c == '\n' || c == '\r' ||
  c == Char.ofNat 11 || c == Char.ofNat 12

/-- Regex class `\w` (ASCII): letters, digits, underscore. -/
def isWordChar (c : Char) : Bool :=
  (('a' ≤ c && c ≤ 'z') || ('A' ≤ c && c ≤ 'Z') ||
   ('0' ≤ c && c ≤ '9') || c == '_')

/-- Regex class `[a-z_]`, the first character of a shell identifier. -/
def isLowerIdStart (c : Char) : Bool :=
  ('a' ≤ c && c ≤ 'z') || c == '_'

/-- Regex class `[a-z0-9_]`. -/
def isLowerIdChar (c : Char) : Bool :=
  ('a' ≤ c && c ≤ 'z') || ('0' ≤ c && c ≤ '9') || c == '_'

/-- Drop leading Python whitespace. -/
def dropWs : List Char → List Char
  | [] => []
  | c :: cs => if isPyWs c then dropWs cs else c :: cs

/-- Python `str.strip()`: drop trailing then leading whitespace. -/
def pyStrip (s : List Char) : List Char :=
  dropWs ((dropWs s.reverse).reverse)

/-! ## Model of `src/dev/check_style.py` (class `StyleChecker`) -/

/-- Severity of a reported finding: `log_error` lines are critical,
`log_warn` lines are warnings (`src/dev/check_style.py`, theme log helpers). -/
inductive Severity
  | critical
  | warning
deriving DecidableEq

/-- One reported violation: the printed message and its severity. -/
structure Finding where
  message : List Char
  severity : Severity
deriving DecidableEq

/-- A candidate file as the checker sees it: its extension
(Python `filepath.suffix`) and its text, `none` when `read_text` raises. -/
structure SFile where
  suffix : String
  content : Option (List Char)
deriving DecidableEq

/-- Counters of `StyleChecker.__init__` (`check_style.py` lines 57-61). -/
structure CheckerState where
  total_files : Nat
  passed_files : Nat
  failed_files : Nat
  warnings : Nat
deriving DecidableEq

/-- The `EXPECTED_COLORS` table (`check_style.py` lines 45-53). -/
def EXPECTED_COLORS : List (List Char × List Char) :=
  [ (chars ("RED"), chars ("243;139;168")),
    (chars ("GREEN"), chars ("166;227;161")),
    (chars ("YELLOW"), chars ("249;226;175")),
    (chars ("BLUE"), chars ("137;180;250")),
    (chars ("MAUVE"), chars ("203;166;247")),
    (chars ("SAPPHIRE"), chars ("116;199;236")),
    (chars ("TEXT"), chars ("205;214;244")) ]

/-- The `StyleChecker.should_ignore` (lines 69-79): the literal marker in the
first 10 newline-separated pieces of the content; a read failure is caught
and yields `False`. -/
def should_ignore (f : SFile) : Bool :=
  match f.content with
  | none => false
  | some c => ((pySplitNL c).take 10).any (fun l => containsB (chars ("STYLECHECK_IGNORE")) l)

/-- Condition of the `check_colors` loop body (lines 86-93) for one color:
the color counts as defined when `readonly NAME=` or `NAME=` occurs anywhere
in the content, and it is an issue when the expected RGB string occurs
nowhere in the content. -/
def colorIssue (content : List Char) (p : List Char × List Char) : Bool :=
  (containsB (chars ("readonly ") ++ p.1 ++ chars ("=")) content ||
   containsB (p.1 ++ chars ("=")) content) &&
  !(containsB p.2 content)

/-- Message of the color warning (line 91). -/
def colorMsg (p : List Char × List Char) : List Char :=
  chars ("Incorrect RGB for ") ++ p.1 ++ chars (" (expected: ") ++ p.2 ++ chars (")")

/-- The `StyleChecker.check_colors` (lines 81-95): returns the issue count and
the findings; each hit increments both `issues` and `self.warnings`, so the
warning increment equals the issue count here. -/
def check_colors (content : List Char) : Nat × List Finding :=
  let bad := EXPECTED_COLORS.filter (fun p => colorIssue content p)
  (bad.length, bad.map (fun p => ⟨colorMsg p, Severity.warning⟩))

/-- A `(issues, warningsIncrement, findings)` contribution of one check. -/
def CheckOut : Type := Nat × Nat × List Finding

/-- Sequencing two check contributions: counters add, findings append. -/
def addT (a b : CheckOut) : CheckOut :=
  (a.1 + b.1, a.2.1 + b.2.1, a.2.2 ++ b.2.2)

/-- The empty check contribution. -/
def zeroT : CheckOut := (0, 0, [])

/-- First element of Python `content.split` on newline (`lines[0]`, always
defined since that split never returns an empty list). -/
def firstNL (c : List Char) : List Char :=
  match pySplitNL c with
  | [] => []
  | l :: _ => l

/-- Shebang acceptance of `check_standards` (line 104): the first line must
start with one of the two exact interpreter strings. -/
def shebangOkStyle (c : List Char) : Bool :=
  isPrefixB (chars ("#!/bin/bash")) (firstNL c) ||
  isPrefixB (chars ("#!/usr/bin/env python3")) (firstNL c)

/-- Shebang clause of `check_standards` (lines 103-106): `log_error`, counted
in `issues`, no warning increment. -/
def stdShebang (c : List Char) : CheckOut :=
  if shebangOkStyle c then zeroT
  else (1, 0, [⟨chars ("Invalid or missing shebang"), Severity.critical⟩])

/-- The `set -e` clause of `check_standards` (lines 109-112): `log_error`,
counted in `issues`. -/
def stdSetE (c : List Char) : CheckOut :=
  if containsB (chars ("set -e")) c then zeroT
  else (1, 0, [⟨chars ("Missing: set -e"), Severity.critical⟩])

/-- The `set -o pipefail` clause of `check_standards` (lines 114-117). -/
def stdPipefail (c : List Char) : CheckOut :=
  if containsB (chars ("set -o pipefail")) c then zeroT
  else (1, 0, [⟨chars ("Missing: set -o pipefail"), Severity.critical⟩])

/-- readonly-colors clause of `check_standards` (lines 119-123): `log_warn`,
counted in `issues` and in `self.warnings`. -/
def stdRed (c : List Char) : CheckOut :=
  if containsB (chars ("RED=")) c && !(containsB (chars ("readonly RED=")) c) then
    (1, 1, [⟨chars ("Color variables should be readonly"), Severity.warning⟩])
  else zeroT

/-- The `StyleChecker.check_standards` (lines 97-125): the shebang clause runs
for every file, the three others only for `.sh` files. -/
def check_standards (c : List Char) (suffix : String) : CheckOut :=
  addT (stdShebang c)
    (if suffix == (".sh") then
      addT (stdSetE c) (addT (stdPipefail c) (stdRed c))
    else zeroT)

/-- Logging clause of `check_structure` (lines 134-139): `log_warn`, counted
in `issues` and `self.warnings`. -/
def structLogging (c : List Char) : CheckOut :=
  if containsB (chars ("readonly RED=")) c &&
     !([chars ("log_error"), chars ("log_success"), chars ("log_info"),
        chars ("log_warn")].any (fun fn => containsB fn c)) then
    (1, 1, [⟨chars ("Script uses colors but has no logging functions"), Severity.warning⟩])
  else zeroT

/-- The `.env`-integration clause of `check_structure` (lines 141-146) with the
default config `SYS_DIR = .sys`: `log_warn`, counted in `self.warnings`
only — `issues` is NOT incremented here. -/
def structEnv (c : List Char) : CheckOut :=
  if !(containsB (chars (".sys/env/.env")) c) &&
     !(containsB (chars ("source \"$REPO_ROOT/.sys/env/.env\"")) c) then
    (0, 1, [⟨chars ("Missing .env integration (.sys/env/.env)"), Severity.warning⟩])
  else zeroT

/-- Description-comment clause of `check_structure` (lines 148-151):
`log_warn`, counted in `self.warnings` only. -/
def structLine2 (c : List Char) : CheckOut :=
  match pySplitNL c with
  | _ :: l2 :: _ =>
    if isPrefixB (chars ("#")) l2 then zeroT
    else (0, 1, [⟨chars ("Missing description comment on line 2"), Severity.warning⟩])
  | _ => zeroT

/-- Python-file clause of `check_structure` (lines 153-157): `log_warn`,
counted in `self.warnings` only. -/
def structLoadEnv (c : List Char) : CheckOut :=
  if !(containsB (chars ("load_env")) c) then
    (0, 1, [⟨chars ("Missing .env integration (load_env function)"), Severity.warning⟩])
  else zeroT

/-- The `StyleChecker.check_structure` (lines 127-159). -/
def check_structure (c : List Char) (suffix : String) : CheckOut :=
  addT
    (if suffix == (".sh") then
      addT (structLogging c) (addT (structEnv c) (structLine2 c))
    else zeroT)
    (if suffix == (".py") then structLoadEnv c else zeroT)

/-- Result of analysing one file in `StyleChecker.check_file`. -/
structure Outcome where
  ignored : Bool
  findings : List Finding
  issues : Nat
  warnIncr : Nat
  passed : Bool
deriving DecidableEq

/-- The non-ignored branch of `check_file` (lines 168-184): run the three
checks, sum `file_issues`, pass iff the sum is zero. -/
def runChecks (c : List Char) (suffix : String) : Outcome :=
  let cc := check_colors c
  let cs := check_standards c suffix
  let ct := check_structure c suffix
  { ignored := false,
    findings := cc.2 ++ cs.2.2 ++ ct.2.2,
    issues := cc.1 + cs.1 + ct.1,
    warnIncr := cc.1 + cs.2.1 + ct.2.1,
    passed := cc.1 + cs.1 + ct.1 == 0 }

/-- The outcome of the ignored branch of `check_file` (lines 163-166):
skip every check, report nothing. -/
def ignoredOutcome : Outcome :=
  { ignored := true, findings := [], issues := 0, warnIncr := 0, passed := true }

/-- The `StyleChecker.check_file` (lines 161-184): the ignored branch returns
early; otherwise `check_colors` reads the file and an unreadable file raises
(`Except.error`), since `check_colors` has no exception handler. -/
def analyze (f : SFile) : Except Unit Outcome :=
  if should_ignore f then Except.ok ignoredOutcome
  else
    match f.content with
    | none => Except.error ()
    | some c => Except.ok (runChecks c f.suffix)

/-- Counter updates of one loop iteration of `StyleChecker.run`
(lines 217-219) together with `check_file`: `total_files` always increments;
an ignored file increments NEITHER `passed_files` NOR `failed_files`
(`check_file` returns early before the counters, line 166). -/
def applyOutcome (st : CheckerState) (o : Outcome) : CheckerState :=
  { total_files := st.total_files + 1,
    passed_files := st.passed_files + (if o.ignored then 0 else if o.passed then 1 else 0),
    failed_files := st.failed_files + (if o.ignored then 0 else if o.passed then 0 else 1),
    warnings := st.warnings + o.warnIncr }

/-- Initial counters (`__init__`). -/
def initState : CheckerState := ⟨0, 0, 0, 0⟩

/-- The file loop of `StyleChecker.run` (lines 217-220): an exception
raised while checking one file propagates and aborts the loop. -/
def runState : CheckerState → List SFile → Except Unit CheckerState
  | st, [] => Except.ok st
  | st, f :: fs =>
    match analyze f with
    | Except.error e => Except.error e
    | Except.ok o => runState (applyOutcome st o) fs

/-- The `StyleChecker.run` (lines 200-241) on an already-scanned candidate
list: empty scan returns exit code 1 before any file is analysed;
otherwise exit code 1 iff `failed_files > 0`. -/
def runStyle (files : List SFile) : Except Unit Nat :=
  if files.isEmpty then Except.ok 1
  else (runState initState files).map (fun st => if st.failed_files > 0 then 1 else 0)

/-! ## Model of `src/dev/shellcheck.py` (class `ShellLinter`) -/

/-- The `ShellLinter.check_shebang` (`shellcheck.py` lines 66-73) as the pair
`(issues added, warnings added)`: no line or a first line without `#!` is an
issue (critical); a `#!` line not mentioning `bash` is a warning only. -/
def shellcheck_shebang (content : List Char) : Nat × Nat :=
  match pySplitlines content with
  | [] => (1, 0)
  | l :: _ =>
    if !(isPrefixB (chars ("#!")) l) then (1, 0)
    else if !(containsB (chars ("bash")) l) then (0, 1)
    else (0, 0)

/-- Alternative `function\s+\w+` of the declaration regex
(`shellcheck.py` line 131), applied after the leading `\s*` is dropped:
the literal word, at least one whitespace, then at least one word
character (the whitespace and word classes are disjoint, so the greedy
match is equivalent to this test). -/
def matchFunctionKw (cs : List Char) : Bool :=
  isPrefixB (chars ("function")) cs &&
    (match cs.drop 8 with
     | [] => false
     | r :: rest =>
       isPyWs r &&
         (match dropWs (r :: rest) with
          | [] => false
          | d :: _ => isWordChar d))

/-- Alternative `[a-z_][a-z0-9_]*\(\s*\)\s*\x7b` of the declaration regex
(line 131), applied after the leading `\s*` is dropped. -/
def matchParenForm (cs : List Char) : Bool :=
  match cs with
  | [] => false
  | c :: rest =>
    isLowerIdStart c &&
      (match rest.dropWhile isLowerIdChar with
       | '(' :: r1 =>
         (match dropWs r1 with
          | ')' :: r2 =>
            (match dropWs r2 with
             | '{' :: _ => true
             | _ => false)
          | _ => false)
       | _ => false)

/-- The `re.match` of the function-declaration regex of
`check_function_locals` (line 131). -/
def isFuncDecl (line : List Char) : Bool :=
  matchFunctionKw (dropWs line) || matchParenForm (dropWs line)

/-- The `re.search` of the assignment regex `^\s*[a-z_][a-z0-9_]*=` (line 147):
anchored, so it is a prefix match after the leading whitespace. -/
def isAssignLine (line : List Char) : Bool :=
  match dropWs line with
  | [] => false
  | c :: rest =>
    isLowerIdStart c &&
      (match rest.dropWhile isLowerIdChar with
       | '=' :: _ => true
       | _ => false)

/-- The `re.search` of `^\s*readonly\b` (line 147). -/
def isReadonlyLine (line : List Char) : Bool :=
  isPrefixB (chars ("readonly")) (dropWs line) &&
    (match (dropWs line).drop 8 with
     | [] => true
     | c :: _ => !isWordChar c)

/-- A whole-word occurrence of `w` starting at the head of `s`
(the trailing `\b`, `w` consisting of word characters). -/
def wordAt (w s : List Char) : Bool :=
  isPrefixB w s &&
    (match s.drop w.length with
     | [] => true
     | c :: _ => !isWordChar c)

/-- Scan for a whole-word occurrence; `boundary` says the previous
character (if any) was not a word character. -/
def searchWordAux (w : List Char) : Bool → List Char → Bool
  | _, [] => false
  | boundary, c :: rest =>
    (boundary && wordAt w (c :: rest)) || searchWordAux w (!isWordChar c) rest

/-- The `re.search` of `\blocal\b`-style patterns (line 144). -/
def searchWord (w s : List Char) : Bool := searchWordAux w true s

/-- The scan state of `ShellLinter.check_function_locals`
(lines 123-148). -/
structure FnScan where
  in_function : Bool
  has_local : Bool
  has_assignment : Bool
  function_lines : Nat
  warnCount : Nat
deriving DecidableEq

/-- One line of the `check_function_locals` loop (lines 130-148): a
declaration line resets the per-function state; inside a function a line
whose `strip()` is the closing brace emits the warning when the function
assigned a variable, never used `local`, and counted more than 2 body
lines; any other line inside a function updates the accumulators. -/
def flStep (st : FnScan) (line : List Char) : FnScan :=
  if isFuncDecl line then
    { in_function := true, has_local := false, has_assignment := false,
      function_lines := 0, warnCount := st.warnCount }
  else if st.in_function && (pyStrip line == chars ("\x7d")) then
    { st with
      in_function := false
      warnCount := st.warnCount +
        (if st.has_assignment && !st.has_local &&
            decide (2 < st.function_lines) then 1 else 0) }
  else if st.in_function then
    { st with
      function_lines := st.function_lines + 1
      has_local := st.has_local || searchWord (chars ("local")) line
      has_assignment :=
        st.has_assignment || (isAssignLine line && !(isReadonlyLine line)) }
  else st

/-- Initial scan state. -/
def initFnScan : FnScan := ⟨false, false, false, 0, 0⟩

/-- The `check_function_locals` over an explicit line list: the number of
"Function assigns variables without local" warnings appended. -/
def check_function_locals_lines (lines : List (List Char)) : Nat :=
  (lines.foldl flStep initFnScan).warnCount

/-- The `ShellLinter.check_function_locals` (lines 123-148) on file content
(`self.lines = content.splitlines()`, line 50). -/
def check_function_locals (content : List Char) : Nat :=
  check_function_locals_lines (pySplitlines content)

/-! ## Model of `src/dev/lint.py` -/

/-- A candidate of `lint.py`: its text (`none` when reading raises), the
verdict of the external `bash -n` syntax validator (`check_syntax`,
lines 21-27) and the executable permission bit (line 85), both oracles
outside the text analysis. -/
structure LFile where
  content : Option (List Char)
  syntaxOk : Bool
  executable : Bool
deriving DecidableEq

/-- The `lint.py` `check_shebang` (lines 30-36): first newline-split piece
starts with `#!`; a read failure is caught and yields `False`. -/
def lint_shebang (f : LFile) : Bool :=
  match f.content with
  | none => false
  | some c => isPrefixB (chars ("#!")) (firstNL c)

/-- The `lint.py` `check_set_e` (lines 39-45): either recognized spelling. -/
def lint_set_e (f : LFile) : Bool :=
  match f.content with
  | none => false
  | some c => containsB (chars ("set -e")) c || containsB (chars ("set -o errexit")) c

/-- The `lint.py` `check_pipefail` (lines 48-54). -/
def lint_pipefail (f : LFile) : Bool :=
  match f.content with
  | none => false
  | some c => containsB (chars ("set -o pipefail")) c

/-- The `lint.py` `lint_file` (lines 57-93) as `(passed, critical issues,
warnings printed)`: only the syntax and shebang checks count as issues,
the set-e, pipefail and executable checks only print warnings; the file
passes iff the issue count is zero. -/
def lint_file (f : LFile) : Bool × Nat × Nat :=
  let i := (if f.syntaxOk then 0 else 1) + (if lint_shebang f then 0 else 1)
  let w := (if lint_set_e f then 0 else 1) + (if lint_pipefail f then 0 else 1) +
           (if f.executable then 0 else 1)
  (i == 0, i, w)

/-- The `lint.py` `main` (lines 110-191) after scanning: exit 1 on an empty
candidate list (lines 161-163), else exit 0 iff the summed critical issue
count of all files is zero (lines 186-191). -/
def lintMain (files : List LFile) : Nat :=
  if files.isEmpty then 1
  else if (files.map (fun f => (lint_file f).2.1)).sum == 0 then 0 else 1

/-! ## Concrete example files used by the witnesses and counterexamples -/

/-- The `RED` entry of `EXPECTED_COLORS`. -/
def redPair : List Char × List Char := (chars ("RED"), chars ("243;139;168"))

/-- A `.sh` file whose single finding is the Warning-severity color
mismatch: `RED` is defined readonly with a wrong RGB value, every other
check is satisfied. -/
def demoWarnOnlyContent : List Char :=
  chars ("#!/bin/bash\n# demo\nset -e\nset -o pipefail\n# .sys/env/.env\nlog_info\nreadonly RED=\"255;0;0\"")

/-- The file with `demoWarnOnlyContent`. -/
def demoWarnOnly : SFile := ⟨(".sh"), some demoWarnOnlyContent⟩

/-- A fully clean `.sh` file: no issues, no warnings. -/
def cleanShContent : List Char :=
  chars ("#!/bin/bash\n# d\nset -e\nset -o pipefail\n# .sys/env/.env")

/-- The file with `cleanShContent`. -/
def cleanSh : SFile := ⟨(".sh"), some cleanShContent⟩

/-- A file carrying the ignore marker on its first line. -/
def ignSh : SFile := ⟨(".sh"), some (chars ("# STYLECHECK_IGNORE"))⟩

/-- A `.sh` file whose first line starts with `#!` but names a
non-expected interpreter; everything else is clean. -/
def wrongShebangContent : List Char :=
  chars ("#!/bin/sh\n# d\nset -e\nset -o pipefail\n# .sys/env/.env")

/-- The file with `wrongShebangContent`. -/
def wrongShebang : SFile := ⟨(".sh"), some wrongShebangContent⟩

/-- A `.sh` file lacking `set -e` (and `set -o errexit`); everything else
is clean. -/
def noSetEContent : List Char :=
  chars ("#!/bin/bash\n# d\nset -o pipefail\n# .sys/env/.env")

/-- The file with `noSetEContent`. -/
def noSetE : SFile := ⟨(".sh"), some noSetEContent⟩

/-- An unreadable candidate: `read_text` raises. -/
def unreadableSh : SFile := ⟨(".sh"), none⟩

/-- A `.sh` file that is clean except for the advisory (non-blocking)
missing `.env` integration warning. -/
def envOnlyContent : List Char :=
  chars ("#!/bin/bash\n# d\nset -e\nset -o pipefail")

/-- A file with violations and the marker inside the first 10 lines. -/
def markerEarly : SFile := ⟨(".sh"), some (chars ("bad first line\n# STYLECHECK_IGNORE\nRED=\"1;2;3\""))⟩

/-- Content with the marker only on line 11. -/
def markerLateContent : List Char :=
  chars ("#!/bin/bash\n#2\n#3\n#4\n#5\n#6\n#7\n#8\n#9\n#10\n# STYLECHECK_IGNORE\nset -e\nset -o pipefail\n# .sys/env/.env")

/-- The file with `markerLateContent`. -/
def markerLate : SFile := ⟨(".sh"), some markerLateContent⟩

/-- A `lint.py` candidate with valid syntax, shebang and permissions but
no stop-on-error directive. -/
def lintGood : LFile := ⟨some (chars ("#!/bin/bash")), true, true⟩

/-- Declaration line of the witness shell function. -/
def fnDecl : List Char := chars ("foo() \x7b")

/-- Closing-brace line of the witness shell function. -/
def fnClose : List Char := chars ("\x7d")

/-- A three-line function body with a bare assignment and no `local`. -/
def fnBody3 : List (List Char) :=
  [chars ("  x=1"), chars ("  echo a"), chars ("  echo b")]

/-- A one-line function body with the same bare assignment. -/
def fnBody1 : List (List Char) := [chars ("  x=1")]

/-- Content defining `ALTERED` — an identifier that merely ends in the
color name `RED` — with a non-reference value, and never defining `RED`. -/
def alteredContent : List Char := chars ("ALTERED=\"9;9;9\"")

/-- Content assigning `RED` a wrong value while mentioning the expected
RGB string in a trailing comment. -/
def mentionContent : List Char := chars ("RED=\"255;0;0\" # themed 243;139;168")

/-! ## Helper lemmas -/

/-- A finding of a combined contribution comes from one of the parts. -/
theorem mem_addT {fd : Finding} {a b : CheckOut} :
    fd ∈ (addT a b).2.2 ↔ fd ∈ a.2.2 ∨ fd ∈ b.2.2 := by
  simp [addT]

/-- Issue counters of a combined contribution add. -/
theorem addT_fst (a b : CheckOut) : (addT a b).1 = a.1 + b.1 := rfl

/-- Every finding of `check_colors` carries Warning severity. -/
theorem check_colors_warning (c : List Char) (fd : Finding)
    (h : fd ∈ (check_colors c).2) : fd.severity = Severity.warning := by
  unfold check_colors at h
  simp only [List.mem_map] at h
  obtain ⟨p, _, hp⟩ := h
  rw [← hp]

/-- When `check_standards` contributes no issue it contributes no finding:
each of its four clauses increments `issues` whenever it emits. -/
theorem check_standards_zero (c : List Char) (sfx : String)
    (h : (check_standards c sfx).1 = 0) : (check_standards c sfx).2.2 = [] := by
  unfold check_standards addT stdShebang stdSetE stdPipefail stdRed zeroT at h ⊢
  split_ifs at h ⊢ <;> simp_all

/-- The logging clause only emits warnings. -/
theorem structLogging_warning {c : List Char} {fd : Finding}
    (h : fd ∈ (structLogging c).2.2) : fd.severity = Severity.warning := by
  unfold structLogging zeroT at h
  split at h <;> simp_all

/-- The `.env` clause only emits warnings. -/
theorem structEnv_warning {c : List Char} {fd : Finding}
    (h : fd ∈ (structEnv c).2.2) : fd.severity = Severity.warning := by
  unfold structEnv zeroT at h
  split at h <;> simp_all

/-- The description-comment clause only emits warnings. -/
theorem structLine2_warning {c : List Char} {fd : Finding}
    (h : fd ∈ (structLine2 c).2.2) : fd.severity = Severity.warning := by
  unfold structLine2 zeroT at h
  rcases hnl : pySplitNL c with _ | ⟨a, _ | ⟨b, t⟩⟩ <;> simp only [hnl] at h
  · simp at h
  · simp at h
  · split at h <;> simp_all

/-- The Python `.env` clause only emits warnings. -/
theorem structLoadEnv_warning {c : List Char} {fd : Finding}
    (h : fd ∈ (structLoadEnv c).2.2) : fd.severity = Severity.warning := by
  unfold structLoadEnv zeroT at h
  split at h <;> simp_all

/-- Every finding of `check_structure` carries Warning severity. -/
theorem check_structure_warning (c : List Char) (sfx : String) (fd : Finding)
    (h : fd ∈ (check_structure c sfx).2.2) : fd.severity = Severity.warning := by
  unfold check_structure at h
  rcases mem_addT.mp h with h | h
  · split at h
    · rcases mem_addT.mp h with h | h
      · exact structLogging_warning h
      · rcases mem_addT.mp h with h | h
        · exact structEnv_warning h
        · exact structLine2_warning h
    · simp [zeroT] at h
  · split at h
    · exact structLoadEnv_warning h
    · simp [zeroT] at h

/-- Folding `flStep` over body lines of a function (no declaration line,
no closing-brace line among them) stays inside the function, counts the
lines, and accumulates the `local` / bare-assignment observations. -/
theorem flFold_body (bs : List (List Char)) (hl ha : Bool) (n w : Nat)
    (hb : ∀ l ∈ bs, isFuncDecl l = false ∧ (pyStrip l == chars ("\x7d")) = false) :
    bs.foldl flStep ⟨true, hl, ha, n, w⟩ =
      ⟨true, hl || bs.any (fun l => searchWord (chars ("local")) l),
        ha || bs.any (fun l => isAssignLine l && !(isReadonlyLine l)),
        n + bs.length, w⟩ := by
  induction bs generalizing hl ha n with
  | nil => simp
  | cons x t ih =>
    obtain ⟨hx1, hx2⟩ := hb x (by simp)
    have hstep : flStep ⟨true, hl, ha, n, w⟩ x =
        ⟨true, hl || searchWord (chars ("local")) x,
          ha || (isAssignLine x && !(isReadonlyLine x)), n + 1, w⟩ := by
      simp [flStep, hx1, hx2]
    rw [List.foldl_cons, hstep, ih _ _ _ (fun l hlmem => hb l (by simp [hlmem]))]
    simp [Bool.or_assoc, Nat.add_assoc, Nat.add_comm 1 t.length]

/-! ## Claim theorems -/

/-- C1 (amended): in `StyleChecker.check_file` a non-ignored readable file
is marked failed exactly when its summed issue count is nonzero, and a
passing file carries only Warning-severity findings (every Critical finding
increments the issue count).  The claim's converse direction fails — three
Warning-severity findings (color mismatch, non-readonly colors, colors
without logging) also increment the issue count, so a Warning-only file can
fail — see the counterexample. -/
theorem C1_critical_dominance_amended (c : List Char) (sfx : String) :
    ((runChecks c sfx).passed = true ↔ (runChecks c sfx).issues = 0) ∧
    ((runChecks c sfx).passed = true →
      ∀ fd, fd ∈ (runChecks c sfx).findings → fd.severity = Severity.warning) := by
  have hpass : (runChecks c sfx).passed =
      ((check_colors c).1 + (check_standards c sfx).1 + (check_structure c sfx).1 == 0) := rfl
  have hiss : (runChecks c sfx).issues =
      (check_colors c).1 + (check_standards c sfx).1 + (check_structure c sfx).1 := rfl
  have hfind : (runChecks c sfx).findings =
      (check_colors c).2 ++ (check_standards c sfx).2.2 ++ (check_structure c sfx).2.2 := rfl
  constructor
  · rw [hpass, hiss]; exact beq_iff_eq
  · intro hp fd hfd
    rw [hpass] at hp
    have hx : (check_colors c).1 + (check_standards c sfx).1 + (check_structure c sfx).1 = 0 :=
      beq_iff_eq.mp hp
    have hstd : (check_standards c sfx).1 = 0 := by omega
    rw [hfind] at hfd
    rcases List.mem_append.mp hfd with h | h
    · rcases List.mem_append.mp h with h | h
      · exact check_colors_warning c fd h
      · rw [check_standards_zero c sfx hstd] at h
        simp at h
    · exact check_structure_warning c sfx fd h

/-- Witness for C1 (amended): a `.sh` file whose single finding is the
advisory `.env`-integration warning has issue count 0, and the theorem
yields the Warning severity of that finding. -/
theorem C1_critical_dominance_witness :
    (runChecks envOnlyContent (".sh")).issues = 0 ∧
    Finding.severity ⟨chars ("Missing .env integration (.sys/env/.env)"), Severity.warning⟩ =
      Severity.warning := by
  refine ⟨(C1_critical_dominance_amended envOnlyContent (".sh")).1.mp (by rfl), ?_⟩
  exact (C1_critical_dominance_amended envOnlyContent (".sh")).2 (by rfl) _ (by decide)

/-- Counterexample to C1 as stated: `demoWarnOnly` is marked failed
(`passed = false`, `failed_files = 1`) although its only finding is the
Warning-severity color mismatch — no Critical finding exists. -/
theorem C1_critical_dominance_counterexample :
    analyze demoWarnOnly =
      Except.ok ⟨false, [⟨colorMsg redPair, Severity.warning⟩], 1, 1, false⟩ ∧
    runState initState [demoWarnOnly] = Except.ok ⟨1, 0, 1, 1⟩ ∧
    ([⟨colorMsg redPair, Severity.warning⟩] : List Finding).all
      (fun fd => fd.severity == Severity.warning) = true :=
  ⟨rfl, rfl, rfl⟩

/-- C2 (code bug): `check_file` returns `True` for a marker-exempted file
with the comment `Count as passed`, but never increments `passed_files`,
while the `run` loop still increments `total_files`; on a run containing
one ignored file the counters end at `total = 1`, `passed = 0`,
`failed = 0`, violating `totalFiles == passedFiles + failedFiles`. -/
theorem C2_summary_invariant_bug :
    runState initState [ignSh] = Except.ok ⟨1, 0, 0, 0⟩ ∧
    should_ignore ignSh = true ∧
    ¬ ((1 : Nat) = 0 + 0) :=
  ⟨rfl, rfl, by decide⟩

/-- C4: a readable file is exempt exactly when the literal marker
`STYLECHECK_IGNORE` occurs within the first 10 newline-split lines: then
`analyze` returns the ignored outcome with zero findings and
`passed = true` regardless of the rest of the content; when the marker is
absent from the first 10 lines (even if present later) the checks run
and the result is not the exempted one. -/
theorem C4_ignore_exemption (f : SFile) (c : List Char) (h : f.content = some c) :
    (((pySplitNL c).take 10).any (fun l => containsB (chars ("STYLECHECK_IGNORE")) l) = true →
      analyze f = Except.ok ignoredOutcome ∧
      ignoredOutcome.findings = [] ∧ ignoredOutcome.passed = true) ∧
    (((pySplitNL c).take 10).any (fun l => containsB (chars ("STYLECHECK_IGNORE")) l) = false →
      analyze f = Except.ok (runChecks c f.suffix) ∧
      (runChecks c f.suffix).ignored = false) := by
  have hsi : should_ignore f =
      ((pySplitNL c).take 10).any (fun l => containsB (chars ("STYLECHECK_IGNORE")) l) := by
    unfold should_ignore
    rw [h]
  constructor
  · intro hm
    refine ⟨?_, rfl, rfl⟩
    unfold analyze
    rw [hsi, hm]
    simp
  · intro hm
    refine ⟨?_, rfl⟩
    unfold analyze
    rw [hsi, hm]
    simp [h]

/-- Witness for C4: a violating file with the marker on line 2 is fully
exempt, while the same checker analyses a file whose marker sits on
line 11. -/
theorem C4_ignore_exemption_witness :
    analyze markerEarly = Except.ok ignoredOutcome ∧
    analyze markerLate = Except.ok (runChecks markerLateContent (".sh")) ∧
    (runChecks markerLateContent (".sh")).ignored = false := by
  refine ⟨((C4_ignore_exemption markerEarly _ rfl).1 (by rfl)).1, ?_, ?_⟩
  · exact ((C4_ignore_exemption markerLate markerLateContent rfl).2 (by rfl)).1
  · exact ((C4_ignore_exemption markerLate markerLateContent rfl).2 (by rfl)).2

/-- C5 (amended): in `check_style.py` an unreadable candidate is not
contained — `check_colors` re-reads the file with no exception handler, so
the exception propagates out of `check_file` and aborts the `run` loop: no
result is recorded for that file and the candidates after it are never
analysed.  However many files were processed successfully before it, the
loop ends in the error state. -/
theorem C5_unreadable_aborts (fs gs : List SFile) (f : SFile)
    (st st' : CheckerState)
    (hf : f.content = none)
    (h : runState st fs = Except.ok st') :
    runState st (fs ++ f :: gs) = Except.error () := by
  induction fs generalizing st with
  | nil =>
    have ha : analyze f = Except.error () := by
      simp [analyze, should_ignore, hf]
    simp [runState, ha]
  | cons a t ih =>
    rw [List.cons_append]
    simp only [runState] at h ⊢
    revert h
    cases hA : analyze a with
    | error e =>
      intro h
      simp at h
    | ok o =>
      intro h
      exact ih (applyOutcome st o) h

/-- Witness for C5 (amended): one successful empty prefix, then the
unreadable file, then one clean candidate — the run errors. -/
theorem C5_unreadable_aborts_witness :
    runState initState ([] ++ unreadableSh :: [cleanSh]) = Except.error () :=
  C5_unreadable_aborts [] [cleanSh] unreadableSh initState initState rfl rfl

/-- Counterexample to C5 as stated: with an unreadable first candidate the
whole run errors out — the unreadable file is not recorded as a failed
file with a Critical finding, and the second (readable, clean) candidate
is never analysed. -/
theorem C5_unreadable_isolation_counterexample :
    runState initState [unreadableSh, cleanSh] = Except.error () ∧
    runStyle [unreadableSh, cleanSh] = Except.error () :=
  ⟨rfl, rfl⟩

/-- C6 (amended): `ShellLinter.check_shebang` behaves as the claim states —
a missing first line or one without `#!` is one critical issue and no
warning, and a `#!` line not mentioning `bash` is one warning and no
issue; but in `check_style.py` the shebang check is all-or-nothing: any
first line that does not start with one of the two exact interpreter
strings — including `#!` lines naming another interpreter — is a
blocking issue that fails the file. -/
theorem C6_shebang_rule_amended (c : List Char) :
    (pySplitlines c = [] → shellcheck_shebang c = (1, 0)) ∧
    (∀ l ls, pySplitlines c = l :: ls →
      (isPrefixB (chars ("#!")) l = false → shellcheck_shebang c = (1, 0)) ∧
      (isPrefixB (chars ("#!")) l = true →
        shellcheck_shebang c = (0, if containsB (chars ("bash")) l then 0 else 1))) ∧
    (shebangOkStyle c = false → (runChecks c (".sh")).passed = false) := by
  refine ⟨?_, ?_, ?_⟩
  · intro h
    unfold shellcheck_shebang
    rw [h]
  · intro l ls h
    constructor
    · intro hp
      unfold shellcheck_shebang
      rw [h]
      simp [hp]
    · intro hp
      unfold shellcheck_shebang
      rw [h]
      by_cases hb : containsB (chars ("bash")) l <;> simp [hp, hb]
  · intro h
    have hsum : (check_standards c (".sh")).1 =
        (stdShebang c).1 + ((stdSetE c).1 + ((stdPipefail c).1 + (stdRed c).1)) := by
      simp [check_standards, addT]
    have hsb : (stdShebang c).1 = 1 := by
      unfold stdShebang
      rw [h]
      simp
    have hpass : (runChecks c (".sh")).passed =
        ((check_colors c).1 + (check_standards c (".sh")).1 +
          (check_structure c (".sh")).1 == 0) := rfl
    rw [hpass]
    simp only [beq_eq_false_iff_ne]
    omega

/-- Witness for C6 (amended): `#!/bin/sh` draws only a warning from
`ShellLinter.check_shebang` but fails the file in `check_style.py`. -/
theorem C6_shebang_rule_witness :
    shellcheck_shebang (chars ("#!/bin/sh")) = (0, 1) ∧
    (runChecks (chars ("#!/bin/sh")) (".sh")).passed = false := by
  have h := C6_shebang_rule_amended (chars ("#!/bin/sh"))
  have h2 := (h.2.1 (chars ("#!/bin/sh")) [] (by rfl)).2 (by rfl)
  have hb : containsB (chars ("bash")) (chars ("#!/bin/sh")) = false := rfl
  rw [hb] at h2
  exact ⟨by simpa using h2, h.2.2 rfl⟩

/-- Counterexample to C6 as stated: a `.sh` file whose first line starts
with `#!` but names `sh` instead of the expected interpreter receives a
Critical finding from `check_style.py` and fails, not a mere Warning. -/
theorem C6_shebang_rule_counterexample :
    isPrefixB (chars ("#!")) (firstNL wrongShebangContent) = true ∧
    shebangOkStyle wrongShebangContent = false ∧
    analyze wrongShebang =
      Except.ok ⟨false, [⟨chars ("Invalid or missing shebang"), Severity.critical⟩],
        1, 0, false⟩ :=
  ⟨rfl, rfl, rfl⟩

/-- C7 (amended): in `lint.py` the stop-on-error directive is advisory —
the per-file verdict is exactly `syntaxOk && shebang`, independent of the
directive, and its absence only adds a printed warning; but in
`check_style.py` a `.sh` file lacking the literal `set -e` takes a
blocking `log_error` issue, so the absence alone fails the file and makes
the run exit non-zero. -/
theorem C7_failfast_advisory_amended :
    (∀ f : LFile, (lint_file f).1 = (f.syntaxOk && lint_shebang f)) ∧
    (∀ f : LFile, lint_set_e f = false → 1 ≤ (lint_file f).2.2) ∧
    (∀ c : List Char, containsB (chars ("set -e")) c = false →
      0 < (runChecks c (".sh")).issues ∧ (runChecks c (".sh")).passed = false) := by
  refine ⟨?_, ?_, ?_⟩
  · intro f
    unfold lint_file
    cases hs : f.syntaxOk <;> cases hb : lint_shebang f <;> simp [hs, hb]
  · intro f hf
    unfold lint_file
    simp only [hf, Bool.false_eq_true, if_false]
    omega
  · intro c h
    have hsum : (check_standards c (".sh")).1 =
        (stdShebang c).1 + ((stdSetE c).1 + ((stdPipefail c).1 + (stdRed c).1)) := by
      simp [check_standards, addT]
    have hse : (stdSetE c).1 = 1 := by
      unfold stdSetE
      rw [h]
      simp
    have hiss : (runChecks c (".sh")).issues =
        (check_colors c).1 + (check_standards c (".sh")).1 +
          (check_structure c (".sh")).1 := rfl
    have hpass : (runChecks c (".sh")).passed =
        ((check_colors c).1 + (check_standards c (".sh")).1 +
          (check_structure c (".sh")).1 == 0) := rfl
    constructor
    · rw [hiss]
      omega
    · rw [hpass]
      simp only [beq_eq_false_iff_ne]
      omega

/-- Witness for C7 (amended): a syntactically valid, executable script
with a `bash` shebang and no stop-on-error directive passes `lint.py`
with at least one printed warning, while a clean `.sh` file lacking
`set -e` fails `check_style.py`. -/
theorem C7_failfast_advisory_witness :
    (lint_file lintGood).1 = (lintGood.syntaxOk && lint_shebang lintGood) ∧
    1 ≤ (lint_file lintGood).2.2 ∧
    (runChecks noSetEContent (".sh")).passed = false :=
  ⟨C7_failfast_advisory_amended.1 lintGood,
   C7_failfast_advisory_amended.2.1 lintGood rfl,
   (C7_failfast_advisory_amended.2.2 noSetEContent rfl).2⟩

/-- Counterexample to C7 as stated: a `.sh` file lacking both recognized
stop-on-error spellings is recorded with a Critical `Missing: set -e`
finding by `check_style.py`, fails, and the run exits 1. -/
theorem C7_failfast_advisory_counterexample :
    containsB (chars ("set -e")) noSetEContent = false ∧
    containsB (chars ("set -o errexit")) noSetEContent = false ∧
    analyze noSetE =
      Except.ok ⟨false, [⟨chars ("Missing: set -e"), Severity.critical⟩], 1, 0, false⟩ ∧
    runStyle [noSetE] = Except.ok 1 :=
  ⟨rfl, rfl, rfl, rfl⟩

/-- A `lint.py` file fails exactly when its critical-issue count is
nonzero. -/
theorem lint_file_fail_iff (f : LFile) :
    (lint_file f).1 = false ↔ (lint_file f).2.1 ≠ 0 := by
  unfold lint_file
  simp

/-- C3 (amended): for a run over at least one candidate, `StyleChecker.run`
exits 1 exactly when the final failed-file counter is positive and 0
exactly when it is zero, and `lint.py` exits 1 exactly when some file
failed.  The exit decision reads only those counters — but in
`check_style.py` Warning findings counted as issues fail a file, so the
number of Warning findings can change the exit code (see the
counterexample). -/
theorem C3_exit_code_amended :
    (∀ (files : List SFile) (st : CheckerState), files ≠ [] →
      runState initState files = Except.ok st →
      (runStyle files = Except.ok 1 ↔ 0 < st.failed_files) ∧
      (runStyle files = Except.ok 0 ↔ st.failed_files = 0)) ∧
    (∀ lfiles : List LFile, lfiles ≠ [] →
      (lintMain lfiles = 1 ↔ ∃ f ∈ lfiles, (lint_file f).1 = false)) := by
  constructor
  · intro files st hne hrun
    have hie : files.isEmpty = false := by
      cases files
      · exact absurd rfl hne
      · rfl
    unfold runStyle
    rw [hie, hrun]
    simp only [Bool.false_eq_true, if_false, Except.map]
    rcases Nat.eq_zero_or_pos st.failed_files with h0 | hpos
    · simp [h0]
    · constructor
      · simp [hpos]
      · simp [hpos]
        omega
  · intro lfiles hne
    have hie : lfiles.isEmpty = false := by
      cases lfiles
      · exact absurd rfl hne
      · rfl
    unfold lintMain
    rw [hie]
    simp only [Bool.false_eq_true, if_false]
    by_cases hs : (lfiles.map (fun f => (lint_file f).2.1)).sum = 0
    · have hz : ((lfiles.map (fun f => (lint_file f).2.1)).sum == 0) = true :=
        beq_iff_eq.mpr hs
      rw [hz]
      simp only [if_true]
      constructor
      · intro h01
        exact absurd h01 (by omega)
      · rintro ⟨f, hmem, hfail⟩
        have hall := List.sum_eq_zero_iff.mp hs
        have hzero : (lint_file f).2.1 = 0 :=
          hall _ (List.mem_map_of_mem _ hmem)
        exact absurd ((lint_file_fail_iff f).mp hfail) (by simp [hzero])
    · have hz : ((lfiles.map (fun f => (lint_file f).2.1)).sum == 0) = false := by
        simp [hs]
      rw [hz]
      simp only [Bool.false_eq_true, if_false]
      constructor
      · intro _
        by_contra hno
        push_neg at hno
        apply hs
        apply List.sum_eq_zero_iff.mpr
        intro x hx
        obtain ⟨f, hf, rfl⟩ := List.mem_map.mp hx
        have hne1 := hno f hf
        have h1 : (lint_file f).1 = true := by
          cases hb : (lint_file f).1
          · exact absurd hb hne1
          · rfl
        by_contra hnz
        exact absurd ((lint_file_fail_iff f).mpr hnz) (by simp [h1])
      · intro _
        trivial

/-- Witness for C3 (amended): the clean one-file run exits 0 with zero
failed files, and the one-file `lint.py` equivalence holds at `lintGood`. -/
theorem C3_exit_code_witness :
    (runStyle [cleanSh] = Except.ok 0 ↔ (⟨1, 1, 0, 0⟩ : CheckerState).failed_files = 0) ∧
    (lintMain [lintGood] = 1 ↔ ∃ f ∈ [lintGood], (lint_file f).1 = false) :=
  ⟨(C3_exit_code_amended.1 [cleanSh] ⟨1, 1, 0, 0⟩ (by simp) rfl).2,
   C3_exit_code_amended.2 [lintGood] (by simp)⟩

/-- Counterexample to C3 as stated: the run over `demoWarnOnly` exits 1
although the file's only finding is a Warning — the count of Warning
findings changed the exit code. -/
theorem C3_exit_code_counterexample :
    runStyle [demoWarnOnly] = Except.ok 1 ∧
    runState initState [demoWarnOnly] = Except.ok ⟨1, 0, 1, 1⟩ ∧
    (runChecks demoWarnOnlyContent (".sh")).findings =
      [⟨colorMsg redPair, Severity.warning⟩] :=
  ⟨rfl, rfl, rfl⟩

/-- C8: a run whose scan produced zero candidates exits 1 before analysing
anything, in both `check_style.py` (lines 210-212) and `lint.py`
(lines 161-163); this is distinct from a run that analysed files and found
nothing — such a run exits 0. -/
theorem C8_empty_scan_failure :
    runStyle [] = Except.ok 1 ∧ lintMain [] = 1 ∧
    (∀ (files : List SFile) (st : CheckerState), files ≠ [] →
      runState initState files = Except.ok st → st.failed_files = 0 →
      runStyle files = Except.ok 0) := by
  refine ⟨rfl, rfl, ?_⟩
  intro files st hne hrun hf
  have hie : files.isEmpty = false := by
    cases files
    · exact absurd rfl hne
    · rfl
  unfold runStyle
  rw [hie, hrun]
  simp [Except.map, hf]

/-- Witness for C8: the empty scan exits 1 while the clean one-file run
exits 0. -/
theorem C8_empty_scan_failure_witness :
    runStyle ([] : List SFile) = Except.ok 1 ∧ runStyle [cleanSh] = Except.ok 0 :=
  ⟨C8_empty_scan_failure.1,
   C8_empty_scan_failure.2.2 [cleanSh] ⟨1, 1, 0, 0⟩ (by simp) rfl rfl⟩

/-- C9: in `ShellLinter.check_function_locals`, a function whose body (the
lines strictly between the declaration line and the closing-brace line)
contains a bare lowercase assignment, never mentions `local` as a whole
word, and is longer than the 2-line threshold yields exactly one warning,
emitted when the scan reaches the closing-brace line; the same body at or
under the threshold yields none. -/
theorem C9_function_locals (decl close : List Char) (bs : List (List Char))
    (hdecl : isFuncDecl decl = true)
    (hclose : pyStrip close = chars ("\x7d"))
    (hclose2 : isFuncDecl close = false)
    (hb : ∀ l ∈ bs, isFuncDecl l = false ∧ (pyStrip l == chars ("\x7d")) = false)
    (hassign : bs.any (fun l => isAssignLine l && !(isReadonlyLine l)) = true)
    (hlocal : bs.any (fun l => searchWord (chars ("local")) l) = false) :
    check_function_locals_lines (decl :: (bs ++ [close])) =
      (if 2 < bs.length then 1 else 0) ∧
    (∀ content, pySplitlines content = decl :: (bs ++ [close]) →
      check_function_locals content = (if 2 < bs.length then 1 else 0)) := by
  have hmain : check_function_locals_lines (decl :: (bs ++ [close])) =
      (if 2 < bs.length then 1 else 0) := by
    unfold check_function_locals_lines
    rw [List.foldl_cons]
    have hd : flStep initFnScan decl = ⟨true, false, false, 0, 0⟩ := by
      simp [flStep, hdecl, initFnScan]
    rw [hd, List.foldl_append, flFold_body bs false false 0 0 hb]
    simp only [hassign, hlocal, Bool.false_or, Nat.zero_add,
      List.foldl_cons, List.foldl_nil]
    simp [flStep, hclose2, hclose]
  refine ⟨hmain, ?_⟩
  intro content hc
  unfold check_function_locals
  rw [hc, hmain]

/-- Witness for C9: `foo() \x7b  x=1 / echo a / echo b \x7d` (three body
lines) draws exactly one warning; the one-body-line variant draws none;
the same holds on the joined file contents. -/
theorem C9_function_locals_witness :
    check_function_locals_lines (fnDecl :: (fnBody3 ++ [fnClose])) = 1 ∧
    check_function_locals_lines (fnDecl :: (fnBody1 ++ [fnClose])) = 0 ∧
    check_function_locals (chars ("foo() \x7b\n  x=1\n  echo a\n  echo b\n\x7d")) = 1 := by
  have h3 := C9_function_locals fnDecl fnClose fnBody3 (by decide) (by decide) (by decide)
    (by decide) (by decide) (by decide)
  have h1 := C9_function_locals fnDecl fnClose fnBody1 (by decide) (by decide) (by decide)
    (by decide) (by decide) (by decide)
  refine ⟨by simpa using h3.1, by simpa using h1.1, ?_⟩
  have := h3.2 (chars ("foo() \x7b\n  x=1\n  echo a\n  echo b\n\x7d")) (by decide)
  simpa using this

/-- C10: the color check's containment semantics — for any color of the
reference table, no finding is emitted whenever the expected RGB string
occurs anywhere in the content (even in a comment, with the actual
assignment wrong); and a Warning finding for that color is emitted
whenever the substring `NAME=` occurs anywhere (even inside a longer
identifier) while the expected RGB string does not occur. -/
theorem C10_color_containment (content : List Char) (p : List Char × List Char)
    (hp : p ∈ EXPECTED_COLORS) :
    (containsB p.2 content = true → colorIssue content p = false) ∧
    (containsB (p.1 ++ chars ("=")) content = true → containsB p.2 content = false →
      colorIssue content p = true ∧
      (⟨colorMsg p, Severity.warning⟩ : Finding) ∈ (check_colors content).2) := by
  constructor
  · intro h
    unfold colorIssue
    rw [h]
    simp
  · intro h1 h2
    have hci : colorIssue content p = true := by
      unfold colorIssue
      rw [h1, h2]
      simp
    refine ⟨hci, ?_⟩
    unfold check_colors
    simp only [List.mem_map]
    exact ⟨p, List.mem_filter.mpr ⟨hp, hci⟩, rfl⟩

/-- Witness for C10: `ALTERED="9;9;9"` (which never defines `RED`)
triggers the `RED` finding, while a wrong `RED` assignment with the
expected value in a comment is not flagged. -/
theorem C10_color_containment_witness :
    colorIssue mentionContent redPair = false ∧
    colorIssue alteredContent redPair = true ∧
    (⟨colorMsg redPair, Severity.warning⟩ : Finding) ∈ (check_colors alteredContent).2 ∧
    containsB (chars ("readonly RED=")) alteredContent = false := by
  have hred : redPair ∈ EXPECTED_COLORS := by decide
  have h := (C10_color_containment alteredContent redPair hred).2 rfl rfl
  exact ⟨(C10_color_containment mentionContent redPair hred).1 rfl, h.1, h.2, rfl⟩
